import Mathlib

/-!
Verification of the Marketing-engine content pipeline.

This file gives a shallow embedding of the orchestration logic of the
repository (blog_generator.py, trend_fetcher.py, post_generator.py,
performance_analyzer.py, performance_fetcher.py) and settles the frozen
claims about it.

External collaborators (the LLM endpoint, the vector store, the HTTP
client) are modelled as explicit inputs: a model reply is a `String`
argument, a vector similarity search is a function argument, an HTTP
response is a value of `HttpResult`.  The Python standard-library
functions that the scripts' behaviour depends on (json.loads, str.strip,
str.lower, slicing, str.find, difflib.SequenceMatcher.ratio) are embedded
as executable Lean functions over `String` / `List Char`.
-/

namespace Marketing

/-! ### JSON values and a model of Python's json.loads -/

/-- A JSON value as produced by Python's json.loads: numbers are collapsed
to rationals (Python compares int and float numerically); json.loads also
accepts the non-standard constants NaN, Infinity and -Infinity. -/
inductive Json where
  | null
  | bool (b : Bool)
  | num (q : ℚ)
  | nan
  | inf (neg : Bool)
  | str (s : String)
  | arr (elems : List Json)
  | obj (fields : List (String × Json))

/-- Lookup in a parsed JSON object.  Python dicts built by json.loads keep
the last occurrence of a duplicated key, hence the reversed search. -/
def dictGet (kvs : List (String × Json)) (k : String) : Option Json :=
  (kvs.reverse.find? (fun p => p.1 == k)).map (fun p => p.2)

/-- JSON whitespace characters (exactly the four accepted by json.loads). -/
def jsonWs (c : Char) : Bool :=
  c = ' ' || c = '\t' || c = '\n' || c = '\r'

def skipWs : List Char → List Char
  | [] => []
  | c :: cs => if jsonWs c then skipWs cs else c :: cs

def hexVal (c : Char) : Option Nat :=
  if '0' ≤ c ∧ c ≤ '9' then some (c.toNat - '0'.toNat)
  else if 'a' ≤ c ∧ c ≤ 'f' then some (c.toNat - 'a'.toNat + 10)
  else if 'A' ≤ c ∧ c ≤ 'F' then some (c.toNat - 'A'.toNat + 10)
  else none

/-- Body of a JSON string literal, after the opening quote.  Mirrors the
strict json.loads scanner: raw control characters are rejected, the
standard escapes and \uXXXX are accepted. -/
def parseStringBody : Nat → List Char → List Char → Option (String × List Char)
  | 0, _, _ => none
  | fuel + 1, acc, cs =>
    match cs with
    | [] => none
    | '"' :: rest => some (String.mk acc.reverse, rest)
    | '\\' :: e :: rest =>
      match e with
      | '"' => parseStringBody fuel ('"' :: acc) rest
      | '\\' => parseStringBody fuel ('\\' :: acc) rest
      | '/' => parseStringBody fuel ('/' :: acc) rest
      | 'b' => parseStringBody fuel ('\x08' :: acc) rest
      | 'f' => parseStringBody fuel ('\x0c' :: acc) rest
      | 'n' => parseStringBody fuel ('\n' :: acc) rest
      | 'r' => parseStringBody fuel ('\r' :: acc) rest
      | 't' => parseStringBody fuel ('\t' :: acc) rest
      | 'u' =>
        match rest with
        | h1 :: h2 :: h3 :: h4 :: rest2 =>
          match hexVal h1, hexVal h2, hexVal h3, hexVal h4 with
          | some v1, some v2, some v3, some v4 =>
            parseStringBody fuel (Char.ofNat (((v1 * 16 + v2) * 16 + v3) * 16 + v4) :: acc) rest2
          | _, _, _, _ => none
        | _ => none
      | _ => none
    | c :: rest =>
      if c.toNat < 32 then none else parseStringBody fuel (c :: acc) rest

/-- Expect a literal character sequence; return the remainder on success. -/
def expectLit : List Char → List Char → Option (List Char)
  | [], cs => some cs
  | l :: ls, c :: cs => if c = l then expectLit ls cs else none
  | _ :: _, [] => none

def digitsToNat (ds : List Char) : Nat :=
  ds.foldl (fun acc c => acc * 10 + (c.toNat - '0'.toNat)) 0

/-- A JSON number per the RFC grammar enforced by json.loads:
optional minus, integer part without leading zeros, optional fraction,
optional exponent. -/
def parseNumber (cs : List Char) : Option (Json × List Char) :=
  let (neg, cs1) : Bool × List Char :=
    match cs with
    | '-' :: rest => (true, rest)
    | _ => (false, cs)
  let intDigits := cs1.takeWhile Char.isDigit
  let cs2 := cs1.dropWhile Char.isDigit
  if intDigits.isEmpty then none
  else if 2 ≤ intDigits.length ∧ intDigits.headD '0' = '0' then none
  else
    let (fracDigits, cs3, fracOk) : List Char × List Char × Bool :=
      match cs2 with
      | '.' :: rest =>
        (rest.takeWhile Char.isDigit, rest.dropWhile Char.isDigit,
          !(rest.takeWhile Char.isDigit).isEmpty)
      | _ => ([], cs2, true)
    if fracOk = false then none
    else
      let (expVal, cs4, expOk) : Int × List Char × Bool :=
        match cs3 with
        | 'e' :: rest => parseExpPart rest
        | 'E' :: rest => parseExpPart rest
        | _ => (0, cs3, true)
      if expOk = false then none
      else
        let mantissa : ℚ :=
          (digitsToNat intDigits : ℚ) +
            (digitsToNat fracDigits : ℚ) / ((10 : ℚ) ^ fracDigits.length)
        let signed : ℚ := if neg then -mantissa else mantissa
        some (Json.num (signed * (10 : ℚ) ^ expVal), cs4)
where
  parseExpPart (rest : List Char) : Int × List Char × Bool :=
    let (esign, rest1) : Int × List Char :=
      match rest with
      | '+' :: r => (1, r)
      | '-' :: r => (-1, r)
      | _ => (1, rest)
    let eDigits := rest1.takeWhile Char.isDigit
    let rest2 := rest1.dropWhile Char.isDigit
    if eDigits.isEmpty then (0, rest, false)
    else (esign * (digitsToNat eDigits : Int), rest2, true)

mutual

/-- JSON value scanner (fuel-indexed recursion). -/
def parseValue : Nat → List Char → Option (Json × List Char)
  | 0, _ => none
  | fuel + 1, cs =>
    match skipWs cs with
    | [] => none
    | '{' :: rest =>
      (match skipWs rest with
       | '}' :: rest2 => some (Json.obj [], rest2)
       | other => parseMembers fuel [] other)
    | '[' :: rest =>
      (match skipWs rest with
       | ']' :: rest2 => some (Json.arr [], rest2)
       | other => parseElems fuel [] other)
    | '"' :: rest =>
      (parseStringBody (rest.length + 1) [] rest).map (fun p => (Json.str p.1, p.2))
    | 't' :: rest => (expectLit ['r', 'u', 'e'] rest).map (fun r => (Json.bool true, r))
    | 'f' :: rest => (expectLit ['a', 'l', 's', 'e'] rest).map (fun r => (Json.bool false, r))
    | 'n' :: rest => (expectLit ['u', 'l', 'l'] rest).map (fun r => (Json.null, r))
    | 'N' :: rest => (expectLit ['a', 'N'] rest).map (fun r => (Json.nan, r))
    | 'I' :: rest =>
      (expectLit ['n', 'f', 'i', 'n', 'i', 't', 'y'] rest).map (fun r => (Json.inf false, r))
    | '-' :: 'I' :: rest =>
      (expectLit ['n', 'f', 'i', 'n', 'i', 't', 'y'] rest).map (fun r => (Json.inf true, r))
    | other => parseNumber other

/-- Elements of a JSON array after the opening bracket (nonempty case). -/
def parseElems : Nat → List Json → List Char → Option (Json × List Char)
  | 0, _, _ => none
  | fuel + 1, acc, cs =>
    match parseValue fuel cs with
    | none => none
    | some (v, rest) =>
      match skipWs rest with
      | ',' :: rest2 => parseElems fuel (v :: acc) rest2
      | ']' :: rest2 => some (Json.arr (v :: acc).reverse, rest2)
      | _ => none

/-- Members of a JSON object after the opening brace (nonempty case). -/
def parseMembers : Nat → List (String × Json) → List Char → Option (Json × List Char)
  | 0, _, _ => none
  | fuel + 1, acc, cs =>
    match skipWs cs with
    | '"' :: rest =>
      (match parseStringBody (rest.length + 1) [] rest with
       | none => none
       | some (k, rest2) =>
         match skipWs rest2 with
         | ':' :: rest3 =>
           (match parseValue fuel rest3 with
            | none => none
            | some (v, rest4) =>
              match skipWs rest4 with
              | ',' :: rest5 => parseMembers fuel ((k, v) :: acc) rest5
              | '}' :: rest5 => some (Json.obj ((k, v) :: acc).reverse, rest5)
              | _ => none)
         | _ => none)
    | _ => none

end

/-- Model of Python's json.loads: parse one JSON value and require that
only whitespace remains (otherwise json.loads raises "Extra data").
Returns none exactly when json.loads would raise JSONDecodeError. -/
def pyJsonLoads (s : String) : Option Json :=
  match parseValue (2 * s.length + 8) s.data with
  | some (v, rest) => if (skipWs rest).isEmpty then some v else none
  | none => none

/-! ### Python string primitives used by the scripts -/

/-- Python exceptions that the modelled code paths can raise. -/
inductive PyErr where
  | jsonDecodeError
  | keyError (k : String)
  | typeError
  | valueError (msg : String)
  | attributeError
  | requestException
deriving Repr, DecidableEq

/-- str.lower on one character (ASCII scope of the model; the titles,
keywords and replies the claims quantify over are compared through this
map on both sides, as in the scripts). -/
def charLower (c : Char) : Char :=
  if 'A' ≤ c ∧ c ≤ 'Z' then Char.ofNat (c.toNat + 32) else c

/-- str.lower. -/
def pyLower (s : String) : String :=
  String.mk (s.data.map charLower)

/-- Python whitespace stripped by str.strip() (ASCII scope). -/
def pySpace (c : Char) : Bool :=
  c = ' ' || c = '\t' || c = '\n' || c = '\r' || c = '\x0b' || c = '\x0c'

/-- str.strip(). -/
def pyStrip (s : String) : String :=
  String.mk (((s.data.dropWhile pySpace).reverse.dropWhile pySpace).reverse)

/-- str.split() with no separator: split on whitespace runs, no empty
words. -/
def pySplit (s : String) : List String :=
  (s.split (fun c => pySpace c)).filter (fun w => w ≠ "")

/-- Whether the character list n occurs as a prefix of h. -/
def startsWithChars : List Char → List Char → Bool
  | [], _ => true
  | _ :: _, [] => false
  | c :: cs, d :: ds => c = d && startsWithChars cs ds

/-- Whether the character list n occurs contiguously inside h: the Python
expression n in h on strings. -/
def containsChars (n : List Char) : List Char → Bool
  | [] => startsWithChars n []
  | c :: cs => startsWithChars n (c :: cs) || containsChars n cs

/-- Python substring membership needle in hay. -/
def containsStr (needle hay : String) : Bool :=
  containsChars needle.data hay.data

/-- re.search of the greedy pattern of one brace-delimited block with
re.S: the match exists iff some opening brace is followed by a closing
brace somewhere after it, and it spans from the first opening brace to
the last closing brace of the whole reply. -/
def braceSpan (s : String) : Option String :=
  let cs := s.data
  match cs.findIdx? (fun c => c = '{') with
  | none => none
  | some i =>
    match cs.reverse.findIdx? (fun c => c = '}') with
    | none => none
    | some r =>
      let j := cs.length - 1 - r
      if i < j then some (String.mk ((cs.drop i).take (j - i + 1))) else none

/-- str.find for a single character: first index, or -1. -/
def pyFind (s : String) (c : Char) : Int :=
  match s.data.findIdx? (fun d => d = c) with
  | some i => (i : Int)
  | none => -1

/-- str.rfind for a single character: last index, or -1. -/
def pyRfind (s : String) (c : Char) : Int :=
  match s.data.reverse.findIdx? (fun d => d = c) with
  | some r => ((s.length - 1 - r : Nat) : Int)
  | none => -1

/-- Python slice s[a:b] with int indices: negative indices count from the
end, and both bounds are clamped to [0, len(s)]. -/
def pySlice (s : String) (a b : Int) : String :=
  let n : Int := (s.length : Int)
  let lo := if a < 0 then max (a + n) 0 else min a n
  let hi := if b < 0 then max (b + n) 0 else min b n
  if lo < hi then String.mk ((s.data.drop lo.toNat).take (hi - lo).toNat) else ""

/-! ### difflib.SequenceMatcher.ratio, as used by the topic dedup check

blog_generator.is_similar compares two lowered titles with
SequenceMatcher(None, a, b).ratio().  The model below follows the
documented semantics of that call: the longest matching block of a
window (for equally long candidates, the one starting earliest in a,
then earliest in b) is found, the search recurses to the left and to
the right of it, and ratio is 2*M/T where M is the total matched length
and T the total length (1.0 when both sequences are empty).  The junk
machinery is trivial here (isjunk=None), and the popularity heuristic on
long sequences never changes the result on the identical-sequence inputs
the claims are about. -/

/-- Length of the common run of two character lists read from the front. -/
def commonRunAux : List Char → List Char → Nat
  | c :: cs, d :: ds => if c = d then commonRunAux cs ds + 1 else 0
  | _, _ => 0

/-- Size of the matching block starting at positions i of a and j of b,
clipped to the window ending at ahi and bhi. -/
def matchSizeAt (a b : List Char) (ahi bhi i j : Nat) : Nat :=
  min (commonRunAux (a.drop i) (b.drop j)) (min (ahi - i) (bhi - j))

/-- One candidate step of the longest-match search: a strictly larger
block displaces the current best, so the earliest maximal block wins. -/
def bestStep (a b : List Char) (ahi bhi i : Nat) (best : Nat × Nat × Nat) (j : Nat) :
    Nat × Nat × Nat :=
  if best.2.2 < matchSizeAt a b ahi bhi i j then (i, j, matchSizeAt a b ahi bhi i j) else best

/-- find_longest_match on the window a[alo:ahi] vs b[blo:bhi]. -/
def longestMatch (a b : List Char) (alo ahi blo bhi : Nat) : Nat × Nat × Nat :=
  (List.range' alo (ahi - alo)).foldl
    (fun best i => (List.range' blo (bhi - blo)).foldl (bestStep a b ahi bhi i) best)
    (alo, blo, 0)

/-- Total size of get_matching_blocks: recurse on both sides of the
longest match (fuel bounds the recursion depth by the window sizes). -/
def matchingTotal (a b : List Char) : Nat → Nat → Nat → Nat → Nat → Nat
  | 0, _, _, _, _ => 0
  | fuel + 1, alo, ahi, blo, bhi =>
    match longestMatch a b alo ahi blo bhi with
    | (_, _, 0) => 0
    | (i, j, k + 1) =>
      (k + 1) + matchingTotal a b fuel alo i blo j +
        matchingTotal a b fuel (i + (k + 1)) ahi (j + (k + 1)) bhi

/-- SequenceMatcher(None, sa, sb).ratio(). -/
def ratioVal (sa sb : String) : ℚ :=
  if sa.data.length + sb.data.length = 0 then 1
  else
    2 * (matchingTotal sa.data sb.data (sa.data.length + sb.data.length + 1)
          0 sa.data.length 0 sb.data.length : ℚ) /
      ((sa.data.length + sb.data.length : Nat) : ℚ)

/-- blog_generator.BlogGenerator.is_similar: case-insensitive similarity
strictly above the threshold (default 0.8 at the call sites). -/
def is_similar (a b : String) (threshold : ℚ) : Bool :=
  decide (threshold < ratioVal (pyLower a) (pyLower b))

/-! ### The similarity of a sequence with itself is 1 -/

theorem commonRunAux_self (l : List Char) : commonRunAux l l = l.length := by
  induction l with
  | nil => rfl
  | cons c cs ih => simp [commonRunAux, ih]

theorem matchSizeAt_le_ahi (a b : List Char) (ahi bhi i j : Nat) :
    matchSizeAt a b ahi bhi i j ≤ ahi := by
  unfold matchSizeAt
  calc min (commonRunAux (a.drop i) (b.drop j)) (min (ahi - i) (bhi - j))
      ≤ min (ahi - i) (bhi - j) := min_le_right _ _
    _ ≤ ahi - i := min_le_left _ _
    _ ≤ ahi := Nat.sub_le _ _

theorem foldl_fix {α β : Type} (F : β → α → β) (best : β) (l : List α)
    (h : ∀ x ∈ l, F best x = best) : l.foldl F best = best := by
  induction l with
  | nil => rfl
  | cons x xs ih =>
    rw [List.foldl_cons, h x (List.mem_cons_self _ _)]
    exact ih (fun y hy => h y (List.mem_cons_of_mem _ hy))

theorem bestStep_fix (a b : List Char) (ahi bhi i : Nat) (best : Nat × Nat × Nat) (j : Nat)
    (h : matchSizeAt a b ahi bhi i j ≤ best.2.2) : bestStep a b ahi bhi i best j = best := by
  unfold bestStep
  rw [if_neg (by omega)]

theorem longestMatch_self (a : List Char) :
    longestMatch a a 0 a.length 0 a.length = (0, 0, a.length) := by
  unfold longestMatch
  rw [Nat.sub_zero]
  rcases hl : a.length with _ | m
  · rfl
  · rw [List.range'_succ]
    have hk : matchSizeAt a a (m + 1) (m + 1) 0 0 = m + 1 := by
      unfold matchSizeAt
      rw [List.drop_zero, commonRunAux_self, hl]
      simp
    have hInner0 : List.foldl (bestStep a a (m + 1) (m + 1) 0) (0, 0, 0)
        (0 :: List.range' (0 + 1) m) = (0, 0, m + 1) := by
      rw [List.foldl_cons]
      have hb : bestStep a a (m + 1) (m + 1) 0 (0, 0, 0) 0 = (0, 0, m + 1) := by
        unfold bestStep
        rw [hk]
        rw [if_pos (Nat.succ_pos m)]
      rw [hb]
      exact foldl_fix _ _ _
        (fun j _ => bestStep_fix a a (m + 1) (m + 1) 0 (0, 0, m + 1) j
          (matchSizeAt_le_ahi a a (m + 1) (m + 1) 0 j))
    rw [List.foldl_cons]
    show List.foldl _ (List.foldl (bestStep a a (m + 1) (m + 1) 0) (0, 0, 0)
      (0 :: List.range' (0 + 1) m)) (List.range' (0 + 1) m) = (0, 0, m + 1)
    rw [hInner0]
    exact foldl_fix _ _ _
      (fun i _ => foldl_fix _ _ _
        (fun j _ => bestStep_fix a a (m + 1) (m + 1) i (0, 0, m + 1) j
          (matchSizeAt_le_ahi a a (m + 1) (m + 1) i j)))

theorem matchingTotal_left_empty (a b : List Char) (f alo blo bhi : Nat) :
    matchingTotal a b f alo alo blo bhi = 0 := by
  cases f with
  | zero => rfl
  | succ f =>
    unfold matchingTotal
    have hlm : longestMatch a b alo alo blo bhi = (alo, blo, 0) := by
      unfold longestMatch
      rw [Nat.sub_self]
      rfl
    rw [hlm]

theorem matchingTotal_self (a : List Char) (f : Nat) :
    matchingTotal a a (f + 1) 0 a.length 0 a.length = a.length := by
  unfold matchingTotal
  rw [longestMatch_self]
  rcases hl : a.length with _ | m
  · rfl
  · simp only [Nat.zero_add]
    rw [matchingTotal_left_empty, matchingTotal_left_empty]

theorem ratioVal_self (s : String) : ratioVal s s = 1 := by
  unfold ratioVal
  rcases Nat.eq_zero_or_pos s.data.length with h0 | hpos
  · rw [h0]
    norm_num
  · have hne : ¬(s.data.length + s.data.length = 0) := by omega
    rw [if_neg hne]
    rw [matchingTotal_self s.data (s.data.length + s.data.length)]
    have hq : ((s.length : ℚ)) ≠ 0 := by
      have hsd : s.length = s.data.length := rfl
      rw [hsd]
      exact Nat.cast_ne_zero.mpr (by omega)
    push_cast
    field_simp
    ring

/-! ### Data model -/

/-- A normalized news record as produced by TrendFetcher.parse_results.
Fields model dictionary entries; none stands for an absent key (the
scripts read them with dict.get and a default). -/
structure NewsItem where
  title : Option String
  description : Option String
  url : Option String
  publishedAt : Option String
  source : Option String
deriving Repr, DecidableEq

/-- An entry of the customer_pain_points / customer_needs arrays of the
niche file.  dict carries the value of the challenge (resp. need) key
when the entry is an object, str is a bare string entry, other is any
other JSON value (skipped by relevance_filter). -/
inductive IcpEntry where
  | dict (field : Option String)
  | str (s : String)
  | other
deriving Repr, DecidableEq

/-- The niche/ICP profile as read from niche_icp.json. -/
structure Niche where
  industry : Option String
  customer_pain_points : List IcpEntry
  customer_needs : List IcpEntry
deriving Repr, DecidableEq

/-- A topic record of topics.json. -/
structure Topic where
  id : Int
  title : String
deriving Repr, DecidableEq

/-! ### TrendFetcher.relevance_filter -/

/-- The keywords contributed by one pain-point/need entry: objects
contribute their (lowered) challenge/need text when it is non-empty,
bare strings always contribute, anything else nothing. -/
def entryKeywords : IcpEntry → List String
  | .dict (some s) => if s = "" then [] else [pyLower s]
  | .dict none => []
  | .str s => [pyLower s]
  | .other => []

/-- The keyword list of TrendFetcher.relevance_filter: the lowered
industry, then the lowered pain-point challenges, then the lowered
needs. -/
def keywordsOf (icp : Niche) : List String :=
  pyLower (icp.industry.getD "") ::
    ((icp.customer_pain_points.map entryKeywords).flatten ++
      (icp.customer_needs.map entryKeywords).flatten)

/-- The lowered "title description" text a candidate item is matched on. -/
def textOf (item : NewsItem) : String :=
  pyLower (item.title.getD "" ++ " " ++ item.description.getD "")

/-- keyword_hit: some non-empty keyword occurs in the item text. -/
def keywordHit (keywords : List String) (text : String) : Bool :=
  keywords.any (fun kw => (kw != "") && containsStr kw text)

/-- semantic_hit: the best single nearest-neighbour score of the item
text against the reference index reaches the threshold.  The index
lookup similarity_search_with_score(text, k=1) is an explicit function
argument sim, returning the best document text and its score, if any. -/
def semanticHit (sim : String → Option (String × ℚ)) (thr : ℚ) (text : String) : Bool :=
  match sim text with
  | some (_, score) => decide (thr ≤ score)
  | none => false

/-- The acceptance test of one candidate item: keyword hit or semantic
hit. -/
def acceptItem (sim : String → Option (String × ℚ)) (keywords : List String) (thr : ℚ)
    (item : NewsItem) : Bool :=
  keywordHit keywords (textOf item) || semanticHit sim thr (textOf item)

/-- An accepted item enriched with the matched reference snippet and its
score, as built by the filter's dict-merge. -/
structure FilteredItem where
  item : NewsItem
  relevance_context : String
  similarity_score : Option ℚ
deriving Repr, DecidableEq

def enrich (sim : String → Option (String × ℚ)) (item : NewsItem) : FilteredItem :=
  { item := item
    relevance_context :=
      match sim (textOf item) with
      | some (doc, _) => doc
      | none => ""
    similarity_score :=
      match sim (textOf item) with
      | some (_, score) => some score
      | none => none }

/-- TrendFetcher.relevance_filter: build the keyword list, accept items
by keyword or semantic hit appending them in discovery order, then
truncate to top_k. -/
def relevance_filter (sim : String → Option (String × ℚ)) (items : List NewsItem)
    (icp : Niche) (top_k : Nat) (threshold : ℚ) : List FilteredItem :=
  (items.foldl
    (fun acc item =>
      if acceptItem sim (keywordsOf icp) threshold item then acc ++ [enrich sim item] else acc)
    []).take top_k

/-! ### Model-reply handling of the generator scripts -/

/-- Python subscription data[k] for a string key. -/
def pyGetItem (j : Json) (k : String) : Except PyErr Json :=
  match j with
  | .obj kvs =>
    match dictGet kvs k with
    | some v => .ok v
    | none => .error (.keyError k)
  | _ => .error .typeError

/-- BlogGenerator.generate_topic, as a function of the model reply: take
the greedy brace-delimited span of the reply if any and json.loads it
(uncaught failure!), otherwise fall back to a dict wrapping the stripped
raw reply; finally subscript with the key topic. -/
def generate_topic (response : String) : Except PyErr Json :=
  match braceSpan response with
  | some span =>
    match pyJsonLoads span with
    | some data => pyGetItem data "topic"
    | none => .error .jsonDecodeError
  | none => pyGetItem (.obj [("topic", .str (pyStrip response))]) "topic"

/-- BlogGenerator.generate_blog, as a function of the model reply: the
same span extraction, with fallback dict keyed blog, returning the
parsed dict itself. -/
def generate_blog (response : String) : Except PyErr Json :=
  match braceSpan response with
  | some span =>
    match pyJsonLoads span with
    | some data => .ok data
    | none => .error .jsonDecodeError
  | none => .ok (.obj [("blog", .str (pyStrip response))])

/-- ContentGenerator.clean_response (post_generator.py): try json.loads
on the whole reply, on failure retry on the brace span (uncaught
failure!), and return an empty dict when there is no span. -/
def clean_response (response : String) : Except PyErr Json :=
  match pyJsonLoads response with
  | some data => .ok data
  | none =>
    match braceSpan response with
    | some span =>
      match pyJsonLoads span with
      | some data => .ok data
      | none => .error .jsonDecodeError
    | none => .ok (.obj [])

/-- LLMPerformanceAnalyzer.analyze_with_llm, as a function of the model
reply: try json.loads on the whole reply; on failure parse the slice
from the first opening brace to the last closing brace; a second failure
is an uncaught JSONDecodeError. -/
def analyze_with_llm (response : String) : Except PyErr Json :=
  match pyJsonLoads response with
  | some data => .ok data
  | none =>
    match pyJsonLoads (pySlice response (pyFind response '{') (pyRfind response '}' + 1)) with
    | some data => .ok data
    | none => .error .jsonDecodeError

/-! ### News fetching -/

/-- Outcome of the HTTP call to the search API: either the request
raised (network failure, timeout after the fixed 20-unit limit), or a
response with a status code and a body (none when the body is not valid
JSON, so that resp.json() raises). -/
inductive HttpResult where
  | exn
  | ok (status : Nat) (body : Option Json)

/-- One article entry of news_results turned into the record appended by
BlogGenerator.fetch_news; iterating a non-dict raises inside the try. -/
def newsRecordOf (art : Json) : Except PyErr Json :=
  match art with
  | .obj kvs =>
    .ok (.obj
      [("title", (dictGet kvs "title").getD .null),
       ("url", (dictGet kvs "link").getD .null),
       ("snippet", (dictGet kvs "snippet").getD .null),
       ("publishedAt", (dictGet kvs "date").getD (.str "")),
       ("source", .str "Google News")])
  | _ => .error .attributeError

/-- The extraction of the result list from the decoded response body. -/
def newsResultsOf (data : Json) : Except PyErr (List Json) :=
  match data with
  | .obj kvs =>
    match (dictGet kvs "news_results").getD (.arr []) with
    | .arr arts => arts.mapM newsRecordOf
    | _ => .error .typeError
  | _ => .error .attributeError

/-- BlogGenerator.fetch_news: the whole request/parse is wrapped in one
try/except, so a non-200 status, a raised request, an invalid body and
a malformed payload all yield the empty list. -/
def fetch_news (r : HttpResult) : List Json :=
  match r with
  | .exn => []
  | .ok status body =>
    if status = 200 then
      match body with
      | some data =>
        match newsResultsOf data with
        | .ok l => l
        | .error _ => []
      | none => []
    else []

/-- TrendFetcher.fetch_serpapi: no try/except around requests.get, so a
raised request propagates; a non-200 status yields the empty dict; an
invalid body makes resp.json() raise. -/
def fetch_serpapi (r : HttpResult) : Except PyErr Json :=
  match r with
  | .exn => .error .requestException
  | .ok status body =>
    if status = 200 then
      match body with
      | some data => .ok data
      | none => .error .jsonDecodeError
    else .ok (.obj [])

/-! ### ContentGenerator.get_context (post_generator.py) -/

/-- The related-news selection: keep news whose lowered title+description
contains some lowered whitespace-separated word of the topic title. -/
def relatedNews (news : List NewsItem) (title : String) : List NewsItem :=
  news.filter (fun n =>
    (pySplit title).any (fun w =>
      containsStr (pyLower w) (pyLower (n.title.getD "" ++ " " ++ n.description.getD ""))))

/-- ContentGenerator.get_context: look the topic id up in the loaded
topics (first match), raising ValueError when absent; on success return
the niche, the selected topic, the related news and the joined
similarity-search context.  The vector lookup similarity_search(query,
k=10) is the function argument sim. -/
def get_context (sim : String → List String) (niche : Niche) (topics : List Topic)
    (news : List NewsItem) (topic_id : Int) :
    Except PyErr (Niche × Topic × List NewsItem × String) :=
  match topics.find? (fun t => t.id == topic_id) with
  | none =>
    .error (.valueError ("Topic with id " ++ toString topic_id ++
      " not found in ./topics/topics.json"))
  | some t => .ok (niche, t, relatedNews news t.title, String.intercalate "\n" (sim t.title))

/-! ### performance_fetcher.extract_metadata -/

/-- Python truthiness of a loaded JSON value (Python None is the null
case, covering the load_json_safe failure path as well). -/
def pyTruthy : Json → Bool
  | .null => false
  | .bool b => b
  | .num q => decide (q ≠ 0)
  | .nan => true
  | .inf _ => true
  | .str s => s != ""
  | .arr xs => !xs.isEmpty
  | .obj kvs => !kvs.isEmpty

/-- performance_fetcher.extract_metadata platform data: falsy data gives
(None, "Untitled"); for the three social platforms the code calls
data.get, which raises AttributeError on a non-dict; the blog branch
guards against non-dicts, and unknown platforms fall through to
(None, "Untitled"). -/
def extract_metadata (platform : String) (data : Json) : Except PyErr (Option Json × Json) :=
  if pyTruthy data = false then .ok (none, .str "Untitled")
  else if platform = "linkedin" ∨ platform = "twitter" ∨ platform = "youtube" then
    match data with
    | .obj kvs => .ok (dictGet kvs "id", (dictGet kvs "title").getD (.str "Untitled"))
    | _ => .error .attributeError
  else if platform = "blog" then
    match data with
    | .obj kvs => .ok (none, (dictGet kvs "title").getD (.str "Untitled"))
    | _ => .ok (none, .str "Untitled")
  else .ok (none, .str "Untitled")

/-! ### The automatic-mode topic dedup loop (BlogGenerator.run) -/

/-- The regeneration loop of BlogGenerator.run in automatic mode, driven
by the stream gen of successive generate_topic results: candidate number
i is accepted when it is similar (threshold 0.8) to no used title,
otherwise the loop asks for candidate i+1.  The fuel argument counts the
loop iterations we are willing to observe; none means the loop is still
running after that many regenerations. -/
def dedupLoop (gen : Nat → String) (used : List String) : Nat → Nat → Option String
  | 0, _ => none
  | fuel + 1, i =>
    if used.any (fun t => is_similar (gen i) t (4 / 5)) then dedupLoop gen used fuel (i + 1)
    else some (gen i)

/-! ### Deterministic performance aggregation -/

/-- Bankers rounding of a rational, as Python's round on an exact tie. -/
def roundHalfEven (q : ℚ) : ℤ :=
  if q - Int.floor q < 1 / 2 then Int.floor q
  else if (1 : ℚ) / 2 < q - Int.floor q then Int.floor q + 1
  else if Int.floor q % 2 = 0 then Int.floor q else Int.floor q + 1

/-- Rounding to 3 decimal places. -/
def round3 (q : ℚ) : ℚ := (roundHalfEven (q * 1000) : ℚ) / 1000

/-- The simulated engagement metrics of a performance record. -/
structure PerformanceMetrics where
  impressions : Int
  likes : Int
  comments : Int
  shares : Int
  engagement_rate : ℚ
deriving Repr, DecidableEq

/-- A record of performance_data.json. -/
structure PerformanceRecord where
  topic_id : Option Int
  platform : String
  title : String
  metrics : PerformanceMetrics
  timestamp : String
deriving Repr, DecidableEq

/-- The engagement rates of the records of one platform, in file order. -/
def platformRates (records : List PerformanceRecord) (platform : String) : List ℚ :=
  (records.filter (fun r => r.platform == platform)).map (fun r => r.metrics.engagement_rate)

/-- Modelled from the spec: the deterministic numeric rollup of the
Metrics Simulator and Aggregator (spec section 4.5) is not among the
source files (only the LLM-narrated analyzer of
performance_analyzer.py is); per the spec it reports, per platform, the
avg_engagement as the mean of the engagement_rate values rounded to 3
decimal places, accumulating the rates of the platform's records in
file order. -/
def avg_engagement (records : List PerformanceRecord) (platform : String) : Option ℚ :=
  if (platformRates records platform).isEmpty then none
  else
    some (round3 ((platformRates records platform).foldl (fun acc r => acc + r) 0 /
      ((platformRates records platform).length : ℚ)))

/-! ### Supporting lemmas -/

theorem string_eq_of_data_eq {s t : String} (h : s.data = t.data) : s = t := by
  cases s
  cases t
  exact congrArg String.mk h

theorem pyLower_append (a b : String) : pyLower (a ++ b) = pyLower a ++ pyLower b := by
  apply string_eq_of_data_eq
  simp [pyLower, String.data_append]

theorem pyLower_ne_empty {s : String} (h : s ≠ "") : pyLower s ≠ "" := by
  intro hc
  apply h
  apply string_eq_of_data_eq
  have hdata : (pyLower s).data = s.data.map charLower := rfl
  have : s.data.map charLower = [] := by
    rw [← hdata, hc]
  rcases s with ⟨l⟩
  cases l with
  | nil => rfl
  | cons c cs => simp at this

theorem startsWithChars_append {n h : List Char} (h2 : List Char)
    (hs : startsWithChars n h = true) : startsWithChars n (h ++ h2) = true := by
  induction n generalizing h with
  | nil => rfl
  | cons c cs ih =>
    cases h with
    | nil => exact absurd hs (by simp [startsWithChars])
    | cons d ds =>
      simp only [startsWithChars, Bool.and_eq_true] at hs
      simp only [List.cons_append, startsWithChars, Bool.and_eq_true]
      exact ⟨hs.1, ih hs.2⟩

theorem containsChars_append {n h : List Char} (h2 : List Char)
    (hc : containsChars n h = true) : containsChars n (h ++ h2) = true := by
  induction h with
  | nil =>
    have hn : n = [] := by
      cases n with
      | nil => rfl
      | cons c cs => simp [containsChars, startsWithChars] at hc
    subst hn
    cases h2 with
    | nil => rfl
    | cons c cs => simp [containsChars, startsWithChars]
  | cons c cs ih =>
    simp only [containsChars, Bool.or_eq_true] at hc
    rcases hc with hs | hrest
    · simp only [List.cons_append, containsChars, Bool.or_eq_true]
      left
      have := startsWithChars_append h2 hs
      simpa using this
    · simp only [List.cons_append, containsChars, Bool.or_eq_true]
      right
      exact ih hrest

theorem containsStr_append (n a b : String) (h : containsStr n a = true) :
    containsStr n (a ++ b) = true := by
  unfold containsStr at h ⊢
  rw [String.data_append]
  exact containsChars_append b.data h

theorem foldl_accum {α β : Type} (p : α → Bool) (g : α → β) (items : List α) (acc : List β) :
    items.foldl (fun acc it => if p it then acc ++ [g it] else acc) acc
      = acc ++ (items.filter p).map g := by
  induction items generalizing acc with
  | nil => simp
  | cons it its ih =>
    rw [List.foldl_cons]
    by_cases h : p it = true
    · rw [if_pos h, ih, List.filter_cons_of_pos h]
      simp
    · rw [if_neg (by simpa using h), ih, List.filter_cons_of_neg (by simpa using h)]

theorem relevance_filter_eq (sim : String → Option (String × ℚ)) (items : List NewsItem)
    (icp : Niche) (top_k : Nat) (thr : ℚ) :
    relevance_filter sim items icp top_k thr =
      ((items.filter (acceptItem sim (keywordsOf icp) thr)).take top_k).map (enrich sim) := by
  unfold relevance_filter
  rw [foldl_accum, List.nil_append, List.map_take]

/-! ### Claim theorems -/

/-- C4: for every candidate list, every niche profile, every similarity
oracle and every top_k, the relevance filter's output is exactly the
first min(top_k, number accepted) accepted items in discovery order
(each enriched with its context and score, never re-ranked), and its
length is at most top_k. -/
theorem relevance_filter_cap_and_order (sim : String → Option (String × ℚ))
    (items : List NewsItem) (icp : Niche) (top_k : Nat) (thr : ℚ) :
    relevance_filter sim items icp top_k thr =
      ((items.filter (acceptItem sim (keywordsOf icp) thr)).take top_k).map (enrich sim) ∧
    (relevance_filter sim items icp top_k thr).length ≤ top_k := by
  refine ⟨relevance_filter_eq sim items icp top_k thr, ?_⟩
  rw [relevance_filter_eq sim items icp top_k thr]
  rw [List.length_map, List.length_take]
  exact min_le_left _ _

/-- C3, counterexample: with niche industry SaaS and eleven candidate
items all of whose titles contain SaaS, the eleventh keyword-hit item is
absent from the filter's output (top_k = 10 as in the run method), so a
keyword-hit item is not always retained. -/
def icpSaaS : Niche := ⟨some "SaaS", [], []⟩

def newsItems11 : List NewsItem :=
  (List.range 11).map (fun i =>
    ⟨some ("SaaS " ++ toString i), some "", none, none, some "Google News"⟩)

def droppedItem : NewsItem := ⟨some "SaaS 10", some "", none, none, some "Google News"⟩

theorem relevance_filter_truncation_drops_keyword_hit :
    (newsItems11.contains droppedItem) = true ∧
    containsStr (pyLower "SaaS") (pyLower "SaaS 10") = true ∧
    (relevance_filter (fun _ => none) newsItems11 icpSaaS 10 (65 / 100)).all
      (fun e => e.item != droppedItem) = true := by
  decide

/-- C3, amended: an item whose title contains the profile's non-empty
industry string (case-insensitively) always passes the acceptance test,
whatever the similarity oracle and threshold; and it appears in the
filter's output whenever it is among the first top_k accepted items
(truncation to top_k can drop later accepted items). -/
theorem keyword_hit_retained_within_cap (sim : String → Option (String × ℚ))
    (items : List NewsItem) (icp : Niche) (top_k : Nat) (thr : ℚ) (it : NewsItem)
    (ind t : String) (hind : icp.industry = some ind) (hne : ind ≠ "")
    (htitle : it.title = some t)
    (hcontains : containsStr (pyLower ind) (pyLower t) = true) :
    acceptItem sim (keywordsOf icp) thr it = true ∧
    (it ∈ (items.filter (acceptItem sim (keywordsOf icp) thr)).take top_k →
      ∃ e ∈ relevance_filter sim items icp top_k thr, e.item = it) := by
  have htext : containsStr (pyLower ind) (textOf it) = true := by
    unfold textOf
    rw [htitle]
    show containsStr (pyLower ind) (pyLower ((t ++ " ") ++ it.description.getD "")) = true
    rw [pyLower_append, pyLower_append]
    exact containsStr_append _ _ _ (containsStr_append _ _ _ hcontains)
  have haccept : acceptItem sim (keywordsOf icp) thr it = true := by
    unfold acceptItem keywordHit keywordsOf
    rw [hind]
    simp only [Option.getD_some, List.any_cons, Bool.or_eq_true, Bool.and_eq_true]
    left
    left
    exact ⟨bne_iff_ne.mpr (pyLower_ne_empty hne), htext⟩
  refine ⟨haccept, fun hmem => ?_⟩
  rw [relevance_filter_eq sim items icp top_k thr]
  exact ⟨enrich sim it, List.mem_map_of_mem (enrich sim) hmem, rfl⟩

theorem keyword_hit_retained_within_cap_witness :
    acceptItem (fun _ => none) (keywordsOf icpSaaS) (65 / 100) droppedItem = true ∧
    ∃ e ∈ relevance_filter (fun _ => none) [droppedItem] icpSaaS 10 (65 / 100),
      e.item = droppedItem := by
  have h := keyword_hit_retained_within_cap (fun _ => none) [droppedItem] icpSaaS 10 (65 / 100)
    droppedItem "SaaS" "SaaS 10" rfl (by decide) rfl (by decide)
  exact ⟨h.1, h.2 (by decide)⟩

/-- C5: two titles that are equal after lowering have similarity ratio
exactly 1, the similarity check at the default 0.8 threshold classifies
them as duplicates, and the dedup test of the regeneration loop rejects
the candidate whenever the other title is among the used ones. -/
theorem dedup_rejects_case_insensitive_equal (a b : String) (h : pyLower a = pyLower b) :
    ratioVal (pyLower a) (pyLower b) = 1 ∧
    is_similar a b (4 / 5) = true ∧
    ∀ used : List String, b ∈ used →
      used.any (fun t => is_similar a t (4 / 5)) = true := by
  have hsim : is_similar a b (4 / 5) = true := by
    unfold is_similar
    rw [h, ratioVal_self]
    simp only [decide_eq_true_eq]
    norm_num
  refine ⟨by rw [h]; exact ratioVal_self _, hsim, fun used hb => ?_⟩
  rw [List.any_eq_true]
  exact ⟨b, hb, hsim⟩

theorem dedup_rejects_case_insensitive_equal_witness :
    ratioVal (pyLower "Rewiring SaaS GTM") (pyLower "rewiring saas gtm") = 1 ∧
    is_similar "Rewiring SaaS GTM" "rewiring saas gtm" (4 / 5) = true ∧
    (["rewiring saas gtm"].any (fun t => is_similar "Rewiring SaaS GTM" t (4 / 5)) = true) := by
  have h := dedup_rejects_case_insensitive_equal "Rewiring SaaS GTM" "rewiring saas gtm"
    (by decide)
  exact ⟨h.1, h.2.1, h.2.2 ["rewiring saas gtm"] (by decide)⟩

/-- C9: the automatic-mode regeneration loop has no retry cap: for every
bound n there is a generator stream, every candidate of which is similar
(above 0.8) to a previously used title, under which the loop is still
running after n regenerations. -/
theorem dedup_loop_no_retry_cap :
    ∀ n : Nat, ∃ (gen : Nat → String) (used : List String),
      (∀ i, used.any (fun t => is_similar (gen i) t (4 / 5)) = true) ∧
      dedupLoop gen used n 0 = none := by
  intro n
  refine ⟨fun _ => "t", ["t"], ?_, ?_⟩
  · intro i
    have hsim : is_similar "t" "t" (4 / 5) = true := by
      unfold is_similar
      rw [ratioVal_self]
      simp only [decide_eq_true_eq]
      norm_num
    simp [hsim]
  · have key : ∀ fuel i, dedupLoop (fun _ => "t") ["t"] fuel i = none := by
      intro fuel
      induction fuel with
      | zero => intro i; rfl
      | succ f ih =>
        intro i
        have hsim : is_similar "t" "t" (4 / 5) = true := by
          unfold is_similar
          rw [ratioVal_self]
          simp only [decide_eq_true_eq]
          norm_num
        unfold dedupLoop
        rw [if_pos (by simp [hsim])]
        exact ih (i + 1)
    exact key n 0

/-- C2, counterexample: the reply whose brace span is not valid JSON
raises JSONDecodeError on the topic path, the blog path and the
post-generator cleaner; and a reply whose span parses to an object
without a topic key makes the topic path raise KeyError.  None of these
returns a fallback value. -/
theorem generation_paths_raise_on_unparsable_span :
    generate_topic "{oops}" = .error .jsonDecodeError ∧
    generate_blog "{oops}" = .error .jsonDecodeError ∧
    clean_response "{oops}" = .error .jsonDecodeError ∧
    generate_topic "\x7b\"a\": 1\x7d" = .error (.keyError "topic") :=
  ⟨rfl, rfl, rfl, rfl⟩

/-- C2, amended: when the reply has no brace-delimited span, the topic
and blog paths return a fallback wrapping the stripped raw text without
raising (and the post-generator cleaner returns without raising); when
the widest span parses as JSON, the blog path returns the parsed value
while the topic path subscripts it with the key topic, returning that
entry when present and raising KeyError when the parsed object lacks it
(TypeError on a non-object); when a span exists and fails to parse, both
paths raise a JSON-decode error instead of falling back, and so does the
cleaner whenever the full reply does not parse either. -/
theorem generation_paths_fallback_shape (response span : String) (j : Json) :
    (braceSpan response = none →
      generate_topic response = .ok (.str (pyStrip response)) ∧
      generate_blog response = .ok (.obj [("blog", .str (pyStrip response))]) ∧
      ∃ v, clean_response response = .ok v) ∧
    (braceSpan response = some span → pyJsonLoads span = some j →
      generate_blog response = .ok j ∧
      generate_topic response = pyGetItem j "topic" ∧
      (∀ kvs v, j = Json.obj kvs → dictGet kvs "topic" = some v →
        generate_topic response = .ok v) ∧
      (∀ kvs, j = Json.obj kvs → dictGet kvs "topic" = none →
        generate_topic response = .error (.keyError "topic"))) ∧
    (braceSpan response = some span → pyJsonLoads span = none →
      generate_topic response = .error .jsonDecodeError ∧
      generate_blog response = .error .jsonDecodeError ∧
      (pyJsonLoads response = none → clean_response response = .error .jsonDecodeError)) := by
  refine ⟨fun hnone => ⟨?_, ?_, ?_⟩, fun hspan hparse => ⟨?_, ?_, ?_, ?_⟩,
    fun hspan hparse => ⟨?_, ?_, fun hfull => ?_⟩⟩
  · unfold generate_topic
    rw [hnone]
    rfl
  · unfold generate_blog
    rw [hnone]
  · unfold clean_response
    rcases hfull : pyJsonLoads response with _ | v
    · rw [hnone]
      exact ⟨Json.obj [], rfl⟩
    · exact ⟨v, rfl⟩
  · unfold generate_blog
    simp only [hspan, hparse]
  · unfold generate_topic
    simp only [hspan, hparse]
  · intro kvs v hj hget
    subst hj
    unfold generate_topic
    simp only [hspan, hparse, pyGetItem, hget]
  · intro kvs hj hget
    subst hj
    unfold generate_topic
    simp only [hspan, hparse, pyGetItem, hget]
  · unfold generate_topic
    simp only [hspan, hparse]
  · unfold generate_blog
    simp only [hspan, hparse]
  · unfold clean_response
    simp only [hfull, hspan, hparse]

theorem generation_paths_fallback_shape_witness :
    generate_topic "a plain reply" = .ok (.str "a plain reply") ∧
    generate_blog "a plain reply" = .ok (.obj [("blog", .str "a plain reply")]) ∧
    generate_topic "x \x7b\"topic\": \"T\"\x7d y" = .ok (.str "T") := by
  have h1 := (generation_paths_fallback_shape "a plain reply" "" Json.null).1 (by rfl)
  have h2 := (generation_paths_fallback_shape "x \x7b\"topic\": \"T\"\x7d y" "\x7b\"topic\": \"T\"\x7d"
    (Json.obj [("topic", Json.str "T")])).2.1 (by rfl) (by rfl)
  exact ⟨h1.1, h1.2.1, h2.2.2.1 [("topic", Json.str "T")] (Json.str "T") rfl rfl⟩

/-- The cleaned substring of the strict analyzer: from the first opening
brace to the last closing brace, with Python slicing semantics. -/
def cleanedReply (response : String) : String :=
  pySlice response (pyFind response '{') (pyRfind response '}' + 1)

/-- C7: in the performance-analysis path, when the full reply does not
parse the brace-to-brace slice is parsed instead, and when that cleaned
substring does not parse either the call fails with a JSON-decode error
rather than returning any fallback value. -/
theorem analyze_with_llm_strict (response : String) :
    (∀ j, pyJsonLoads response = none → pyJsonLoads (cleanedReply response) = some j →
      analyze_with_llm response = .ok j) ∧
    (pyJsonLoads response = none → pyJsonLoads (cleanedReply response) = none →
      analyze_with_llm response = .error .jsonDecodeError) := by
  constructor
  · intro j h1 h2
    unfold cleanedReply at h2
    unfold analyze_with_llm
    rw [h1, h2]
  · intro h1 h2
    unfold cleanedReply at h2
    unfold analyze_with_llm
    rw [h1, h2]

theorem analyze_with_llm_strict_witness :
    analyze_with_llm "performance summary without json" = .error .jsonDecodeError :=
  (analyze_with_llm_strict "performance summary without json").2 rfl rfl

/-- C8: the content-generation context lookup fails with the descriptive
ValueError when no loaded topic carries the requested id, and returns
the first matching topic (with its related news and retrieval context)
when one does. -/
theorem get_context_topic_lookup (sim : String → List String) (niche : Niche)
    (topics : List Topic) (news : List NewsItem) (topic_id : Int) :
    ((∀ t ∈ topics, t.id ≠ topic_id) →
      get_context sim niche topics news topic_id =
        .error (.valueError ("Topic with id " ++ toString topic_id ++
          " not found in ./topics/topics.json"))) ∧
    (∀ t, topics.find? (fun t => t.id == topic_id) = some t →
      get_context sim niche topics news topic_id =
        .ok (niche, t, relatedNews news t.title, String.intercalate "\n" (sim t.title))) := by
  constructor
  · intro h
    have hnone : topics.find? (fun t => t.id == topic_id) = none :=
      List.find?_eq_none.mpr (fun x hx => by simpa using h x hx)
    unfold get_context
    rw [hnone]
  · intro t ht
    unfold get_context
    rw [ht]

def topicsW : List Topic := [⟨1, "Alpha"⟩]

theorem get_context_topic_lookup_witness :
    get_context (fun _ => []) icpSaaS topicsW [] 2 =
      .error (.valueError "Topic with id 2 not found in ./topics/topics.json") ∧
    get_context (fun _ => []) icpSaaS topicsW [] 1 =
      .ok (icpSaaS, ⟨1, "Alpha"⟩, [], "") :=
  ⟨(get_context_topic_lookup (fun _ => []) icpSaaS topicsW [] 2).1 (by decide),
   (get_context_topic_lookup (fun _ => []) icpSaaS topicsW [] 1).2 ⟨1, "Alpha"⟩ (by decide)⟩

/-- C6, counterexample: a raised request (e.g. the 20-unit timeout) on
the trend-fetcher news fetch propagates out of fetch_serpapi, which has
no try/except, instead of yielding an empty result. -/
theorem fetch_serpapi_propagates_exception :
    fetch_serpapi .exn = .error .requestException := rfl

/-- C6, amended: the blog-generator news fetch returns the empty list on
a non-200 status, on a raised request and on an undecodable body, and
the pipeline continues; the trend-fetcher fetch returns the empty dict
on a non-200 status only, while a raised request propagates out of it. -/
theorem fetch_error_handling (status : Nat) (body : Option Json) :
    fetch_news .exn = [] ∧
    (status ≠ 200 → fetch_news (.ok status body) = []) ∧
    fetch_news (.ok 200 none) = [] ∧
    (status ≠ 200 → fetch_serpapi (.ok status body) = .ok (.obj [])) ∧
    fetch_serpapi .exn = .error .requestException := by
  refine ⟨rfl, fun h => ?_, rfl, fun h => ?_, rfl⟩
  · show (if status = 200 then _ else []) = []
    rw [if_neg h]
  · show (if status = 200 then _ else Except.ok (Json.obj [])) = Except.ok (Json.obj [])
    rw [if_neg h]

theorem fetch_error_handling_witness :
    fetch_news (.ok 500 none) = [] ∧ fetch_serpapi (.ok 500 none) = .ok (.obj []) :=
  ⟨(fetch_error_handling 500 none).2.1 (by decide),
   (fetch_error_handling 500 none).2.2.2.1 (by decide)⟩

/-- C10, counterexample: for the linkedin platform and a loaded content
value that is a non-empty list, the metadata extraction calls .get on a
list and raises AttributeError, so it is not total on every loaded
value. -/
theorem extract_metadata_raises_on_nondict :
    extract_metadata "linkedin" (.arr [.str "x"]) = .error .attributeError := rfl

/-- C10, amended: the metadata extraction returns (None, Untitled) on
every falsy content value; it is total on every dict; for platforms
other than the three social ones it is total with topic_id always None;
and on any dict lacking a title the returned title defaults to Untitled.
It raises only for linkedin/twitter/youtube on truthy non-dict data. -/
theorem extract_metadata_guards (platform : String) (data : Json) :
    (pyTruthy data = false → extract_metadata platform data = .ok (none, .str "Untitled")) ∧
    (∀ kvs, data = .obj kvs → ∃ r, extract_metadata platform data = .ok r) ∧
    ((platform ≠ "linkedin" ∧ platform ≠ "twitter" ∧ platform ≠ "youtube") →
      ∃ title, extract_metadata platform data = .ok (none, title)) ∧
    (∀ kvs, data = .obj kvs → dictGet kvs "title" = none →
      ∃ tid, extract_metadata platform data = .ok (tid, .str "Untitled")) := by
  refine ⟨fun h0 => ?_, fun kvs hk => ?_, fun hni => ?_, fun kvs hk hmiss => ?_⟩
  · unfold extract_metadata
    rw [if_pos h0]
  · subst hk
    unfold extract_metadata
    by_cases h0 : pyTruthy (Json.obj kvs) = false
    · rw [if_pos h0]
      exact ⟨_, rfl⟩
    · rw [if_neg h0]
      by_cases h1 : platform = "linkedin" ∨ platform = "twitter" ∨ platform = "youtube"
      · rw [if_pos h1]
        exact ⟨_, rfl⟩
      · rw [if_neg h1]
        by_cases h2 : platform = "blog"
        · rw [if_pos h2]
          exact ⟨_, rfl⟩
        · rw [if_neg h2]
          exact ⟨_, rfl⟩
  · unfold extract_metadata
    have h1 : ¬(platform = "linkedin" ∨ platform = "twitter" ∨ platform = "youtube") := by
      tauto
    by_cases h0 : pyTruthy data = false
    · rw [if_pos h0]
      exact ⟨_, rfl⟩
    · rw [if_neg h0, if_neg h1]
      by_cases h2 : platform = "blog"
      · rw [if_pos h2]
        cases data <;> exact ⟨_, rfl⟩
      · rw [if_neg h2]
        exact ⟨_, rfl⟩
  · subst hk
    unfold extract_metadata
    by_cases h0 : pyTruthy (Json.obj kvs) = false
    · rw [if_pos h0]
      exact ⟨none, rfl⟩
    · rw [if_neg h0]
      by_cases h1 : platform = "linkedin" ∨ platform = "twitter" ∨ platform = "youtube"
      · rw [if_pos h1]
        refine ⟨dictGet kvs "id", ?_⟩
        show Except.ok (dictGet kvs "id", (dictGet kvs "title").getD (Json.str "Untitled")) =
          Except.ok (dictGet kvs "id", Json.str "Untitled")
        rw [hmiss]
        rfl
      · rw [if_neg h1]
        by_cases h2 : platform = "blog"
        · rw [if_pos h2]
          refine ⟨none, ?_⟩
          show Except.ok ((none : Option Json), (dictGet kvs "title").getD (Json.str "Untitled")) =
            Except.ok ((none : Option Json), Json.str "Untitled")
          rw [hmiss]
          rfl
        · rw [if_neg h2]
          exact ⟨none, rfl⟩

theorem extract_metadata_guards_witness :
    extract_metadata "linkedin" (.obj []) = .ok (none, .str "Untitled") :=
  (extract_metadata_guards "linkedin" (.obj [])).1 (by decide)

/-- C1: for every record collection and every platform with at least one
record, the aggregator's avg_engagement for that platform is the
arithmetic mean of that platform's engagement_rate values, rounded to 3
decimal places. -/
theorem avg_engagement_is_rounded_mean (records : List PerformanceRecord) (platform : String)
    (h : platformRates records platform ≠ []) :
    avg_engagement records platform =
      some (round3 ((platformRates records platform).sum /
        ((platformRates records platform).length : ℚ))) := by
  unfold avg_engagement
  rw [if_neg (by simpa [List.isEmpty_iff] using h)]
  rw [List.sum_eq_foldl]

def perfRecords2 : List PerformanceRecord :=
  [⟨some 1, "blog", "A", ⟨1000, 60, 20, 20, 1 / 10⟩, "t1"⟩,
   ⟨some 2, "blog", "B", ⟨1000, 30, 10, 10, 1 / 20⟩, "t2"⟩]

theorem avg_engagement_is_rounded_mean_witness :
    platformRates perfRecords2 "blog" ≠ [] ∧
    avg_engagement perfRecords2 "blog" = some (3 / 40) := by
  refine ⟨by decide, ?_⟩
  rw [avg_engagement_is_rounded_mean perfRecords2 "blog" (by decide)]
  have hrates : platformRates perfRecords2 "blog" = [1 / 10, 1 / 20] := rfl
  rw [hrates]
  norm_num [round3, roundHalfEven]

end Marketing
